import Mathlib

/-!
Verification of the motion-gated frame buffering and inference-scheduling
pipeline of the Pitch-Perfect frontend.

The development shallowly embeds:
* `src/frontend/src/utils/frameBuffer.ts` (class `FrameBuffer`),
* the capture/prediction coordinator `handleFrameCapture` of the application
  page (split at its single `await` into a start step and a resolve step),
* the TTS service (`playAudioFromBase64`, `fallbackTTS`, `speakActionFeedback`,
  `stopAudio`),
* the pose-detector initialization fallback chain
  (`src/frontend/src/services/poseDetection.ts`).

Machine numbers are embedded as `ℕ`/`ℤ`/`ℚ`; timestamps as `ℕ` compared via
`ℤ` subtraction exactly as the source subtracts `Date.now()` values.  Browser
side effects (canvas encoding, the network, audio elements) appear as explicit
inputs/outputs of the step functions.
-/

namespace Pitch

/-- One pixel of an `ImageData` raster, given by its three colour channels.
The source stores RGBA bytes in a flat array and reads only the offsets
`i`, `i+1`, `i+2` of each 4-byte group, so the alpha byte is dropped here and
`data.length / 4` of the source corresponds to `data.length` below. -/
structure Pixel where
  r : ℕ
  g : ℕ
  b : ℕ
deriving DecidableEq

/-- The decoded raster of a captured frame (browser `ImageData`). -/
structure ImageData where
  width : ℕ
  height : ℕ
  data : List Pixel
deriving DecidableEq

/-- The grayscale (luminance) value of a pixel used by
`FrameBuffer.calculateMotion`: `(frame.data[i] + frame.data[i+1] + frame.data[i+2]) / 3`. -/
def grayscale (p : Pixel) : ℚ :=
  ((p.r : ℚ) + (p.g : ℚ) + (p.b : ℚ)) / 3

/-- Whether one pixel counts as changed between two frames:
`Math.abs(gray1 - gray2) > threshold` with `threshold = 30` and
`gray = (r + g + b) / 3`.  Over exact arithmetic this comparison holds iff
the channel sums differ by more than `90`, which is the integer form used
here so that the predicate evaluates inside the kernel; the equivalence with
the grayscale form is proved below (`pixelChanged_iff_grayscale`). -/
def pixelChanged (p q : Pixel) : Bool :=
  decide (90 < (((p.r + p.g + p.b : ℤ)) - ((q.r + q.g + q.b : ℤ))).natAbs)

/-- The number of indices at which the two rasters differ by more than the
pixel threshold; the source loop walks the byte array of `frame1` and counts
`changedPixels`.  Reading past the end of `frame2.data` in JavaScript yields
`NaN` grayscale values for which the `>` comparison is false, so the zip
(truncating to the shorter raster) matches the loop. -/
def countChanged (d1 d2 : List Pixel) : ℕ :=
  ((d1.zip d2).filter fun pq => pixelChanged pq.1 pq.2).length

/-- `FrameBuffer.calculateMotion`: frames of different dimensions score `1.0`;
otherwise the fraction `changedPixels / pixels` with
`pixels = frame1.data.length / 4` (the pixel count). -/
def calculateMotion (frame1 frame2 : ImageData) : ℚ :=
  if frame1.width ≠ frame2.width ∨ frame1.height ≠ frame2.height then 1
  else mkRat (countChanged frame1.data frame2.data : ℤ) frame1.data.length

/-- One buffered frame (`FrameData` of frameBuffer.ts). -/
structure FrameData where
  base64 : String
  imageData : ImageData
  timestamp : ℕ
deriving DecidableEq

/-- The state of a `FrameBuffer` instance. -/
structure FrameBuffer where
  buffer : List FrameData
  maxFrames : ℕ
  frameInterval : ℕ
  motionThreshold : ℚ
  lastCaptureTime : ℕ
  hasSignificantMotion : Bool
deriving DecidableEq

/-- `new FrameBuffer(maxFrames, frameInterval, motionThreshold)`. -/
def FrameBuffer.init (maxFrames frameInterval : ℕ) (motionThreshold : ℚ) : FrameBuffer :=
  ⟨[], maxFrames, frameInterval, motionThreshold, 0, false⟩

/-- The constructor defaults: capacity `8`, interval `200` ms, motion
threshold `0.15`. -/
def FrameBuffer.initDefault : FrameBuffer :=
  FrameBuffer.init 8 200 (mkRat 15 100)

/-- Lines 88–96 of frameBuffer.ts: when the buffer already holds a previous
frame, compare it with the incoming raster and latch `hasSignificantMotion`
when the score exceeds the threshold. -/
def FrameBuffer.updateMotion (fb : FrameBuffer) (imageData : ImageData) : FrameBuffer :=
  match fb.buffer.getLast? with
  | some lastFrame =>
      if fb.motionThreshold < calculateMotion lastFrame.imageData imageData then
        { fb with hasSignificantMotion := true }
      else fb
  | none => fb

/-- Lines 98–108 of frameBuffer.ts: append the new record, then `shift()` the
oldest record off the front when the length exceeds `maxFrames`. -/
def FrameBuffer.pushRecord (fb : FrameBuffer) (rec : FrameData) : FrameBuffer :=
  { fb with
    buffer :=
      if fb.maxFrames < (fb.buffer ++ [rec]).length then (fb.buffer ++ [rec]).tail
      else fb.buffer ++ [rec] }

/-- `FrameBuffer.isReady()`: `buffer.length >= maxFrames && hasSignificantMotion`. -/
def FrameBuffer.isReady (fb : FrameBuffer) : Bool :=
  decide (fb.maxFrames ≤ fb.buffer.length) && fb.hasSignificantMotion

/-- `FrameBuffer.addFrame(video)`.  The wall clock `now` and the result of the
canvas capture (`base64`, `imageData`) are explicit inputs.  Returns the
boolean result together with the successor state.  A call inside the throttle
interval (`now - lastCaptureTime < frameInterval`, computed on integers as the
source subtracts timestamps) is a no-op returning `false`.  Otherwise the
motion check runs against the last buffered frame, the record is pushed with
eviction, and the result is the source's trailing nested `if`:
`buffer.length >= maxFrames` and then `hasSignificantMotion`. -/
def FrameBuffer.addFrame (fb : FrameBuffer) (now : ℕ) (base64 : String)
    (imageData : ImageData) : Bool × FrameBuffer :=
  if (now : ℤ) - (fb.lastCaptureTime : ℤ) < (fb.frameInterval : ℤ) then (false, fb)
  else
    let fb3 := (FrameBuffer.updateMotion { fb with lastCaptureTime := now } imageData).pushRecord
      ⟨base64, imageData, now⟩
    (if fb3.maxFrames ≤ fb3.buffer.length then
        (if fb3.hasSignificantMotion then true else false)
      else false, fb3)

/-- `FrameBuffer.getFrames()`: when the buffer is below capacity and
non-empty, the last record is pushed repeatedly (mutating the buffer) until
the length equals `maxFrames`; the base64 strings of the resulting buffer are
returned.  Returns the output list together with the successor state. -/
def FrameBuffer.getFrames (fb : FrameBuffer) : List String × FrameBuffer :=
  let buf :=
    if fb.buffer.length < fb.maxFrames then
      match fb.buffer.getLast? with
      | some lastFrame =>
          fb.buffer ++ List.replicate (fb.maxFrames - fb.buffer.length) lastFrame
      | none => fb.buffer
    else fb.buffer
  (buf.map fun f => f.base64, { fb with buffer := buf })

/-- `FrameBuffer.getMotionLevel()`: mean of the motion scores of consecutive
buffered frames, `0` when fewer than two frames are buffered. -/
def FrameBuffer.getMotionLevel (fb : FrameBuffer) : ℚ :=
  if fb.buffer.length < 2 then 0
  else
    let imgs := fb.buffer.map fun f => f.imageData
    ((imgs.zip imgs.tail).map fun pq => calculateMotion pq.1 pq.2).sum /
      ((fb.buffer.length : ℚ) - 1)

/-- `FrameBuffer.clear()`. -/
def FrameBuffer.clear (fb : FrameBuffer) : FrameBuffer :=
  { fb with buffer := [], lastCaptureTime := 0, hasSignificantMotion := false }

/-- `FrameBuffer.resetMotionFlag()`. -/
def FrameBuffer.resetMotionFlag (fb : FrameBuffer) : FrameBuffer :=
  { fb with hasSignificantMotion := false }

/-- One call to `addFrame`, as data: the wall-clock time and the captured
frame offered to the buffer. -/
structure PushInput where
  now : ℕ
  base64 : String
  imageData : ImageData
deriving DecidableEq

/-- Fold a sequence of `addFrame` calls over the buffer, collecting every
boolean result. -/
def FrameBuffer.addFrames (fb : FrameBuffer) : List PushInput → List Bool × FrameBuffer
  | [] => ([], fb)
  | inp :: rest =>
      let step := fb.addFrame inp.now inp.base64 inp.imageData
      let tailRun := step.2.addFrames rest
      (step.1 :: tailRun.1, tailRun.2)

/-- Every push in the sequence arrives at least `interval` ms after the
previous accepted time, so none is throttled away. -/
def allSpaced (last interval : ℕ) : List PushInput → Bool
  | [] => true
  | inp :: rest => decide (last + interval ≤ inp.now) && allSpaced inp.now interval rest

/-- A static scene: every adjacent pair of pushed frames has motion score at
most `thr`. -/
def allStill (thr : ℚ) : List PushInput → Bool
  | [] => true
  | [_] => true
  | a :: b :: rest =>
      decide (calculateMotion a.imageData b.imageData ≤ thr) && allStill thr (b :: rest)

/-! ## Coordinator: `handleFrameCapture` of the application page

The source is an `async` React callback with one `await` (`predictLive`).
It is embedded as two atomic steps: `handleFrameCaptureStart` runs the code
before the `await` (guard, throttle, `addFrame`, `getFrames`, issuing the
remote call), and `handleFrameCaptureResolve` runs the continuation
(`try` success path or `catch`, then `finally`).  The remote call itself is
external, so its outcome is an explicit input of the resolve step. -/

/-- The backend prediction result (`PredictionResponse` of the frontend
types). -/
structure PredictionResponse where
  prediction : String
  confidence : ℚ
  message : String
deriving DecidableEq

/-- One point of the rolling confidence history (`ConfidenceDataPoint`). -/
structure ConfidenceDataPoint where
  time : ℕ
  confidence : ℚ
  timestamp : ℕ
deriving DecidableEq

/-- `FRAME_INTERVAL_MS = 200`. -/
def FRAME_INTERVAL_MS : ℕ := 200

/-- `MAX_HISTORY_POINTS = 50`. -/
def MAX_HISTORY_POINTS : ℕ := 50

/-- The mutable state of the application page touched by
`handleFrameCapture`, `handleStart` and `handleStop`: React state plus the
refs (`processingRef`, `lastProcessTimeRef`, `lastActionRef`,
`frameBufferRef`, `timeCounterRef`). -/
structure CoordState where
  isCameraActive : Bool
  prediction : Option PredictionResponse
  isProcessing : Bool
  error : Option String
  audioTranscript : String
  confidenceHistory : List ConfidenceDataPoint
  videoDimensions : ℕ × ℕ
  processing : Bool
  lastProcessTime : ℕ
  lastAction : Option String
  timeCounter : ℕ
  fb : FrameBuffer
deriving DecidableEq

/-- The part of `handleFrameCapture` before the `await`: in-flight/inactive
guard, video-dimension update, throttle, `addFrame`, and on a ready buffer the
acquisition of the guard, `getFrames`, and the remote call.  The second
component is `some frames` exactly when `predictLive(frames)` is issued. -/
def handleFrameCaptureStart (s : CoordState) (now videoWidth videoHeight : ℕ)
    (base64 : String) (imageData : ImageData) : CoordState × Option (List String) :=
  if s.processing || !s.isCameraActive then (s, none)
  else
    let s1 := if 0 < videoWidth ∧ 0 < videoHeight then
        { s with videoDimensions := (videoWidth, videoHeight) }
      else s
    if (now : ℤ) - (s1.lastProcessTime : ℤ) < (FRAME_INTERVAL_MS : ℤ) then (s1, none)
    else
      let step := s1.fb.addFrame now base64 imageData
      let s2 := { s1 with fb := step.2 }
      if !step.1 then (s2, none)
      else
        let s3 := { s2 with processing := true, isProcessing := true, lastProcessTime := now }
        let got := s3.fb.getFrames
        ({ s3 with fb := got.2 }, some got.1)

/-- The continuation of `handleFrameCapture` once `predictLive` settles.
On success: store the prediction, append a confidence point (confidence scaled
to percent, history truncated to its last `MAX_HISTORY_POINTS` entries),
reset the motion flag, and when the label differs from `lastActionRef` update
it, set the transcript, and fire the voice feedback (returned as
`some (label, confidence, message)`).  On failure: store the error message and
reset the motion flag.  Both paths end with the `finally` block clearing the
in-flight guard. -/
def handleFrameCaptureResolve (s : CoordState)
    (outcome : Except String PredictionResponse) (now2 : ℕ) :
    CoordState × Option (String × ℚ × String) :=
  match outcome with
  | Except.ok result =>
      let tc := s.timeCounter + 1
      let updated := s.confidenceHistory ++ [⟨tc, result.confidence * 100, now2⟩]
      let s2 : CoordState :=
        { s with prediction := some result, timeCounter := tc,
                 confidenceHistory := updated.drop (updated.length - MAX_HISTORY_POINTS),
                 fb := s.fb.resetMotionFlag }
      if s2.lastAction ≠ some result.prediction then
        ({ s2 with lastAction := some result.prediction,
                   audioTranscript := result.message,
                   processing := false, isProcessing := false },
          some (result.prediction, result.confidence, result.message))
      else
        ({ s2 with processing := false, isProcessing := false }, none)
  | Except.error msg =>
      ({ s with error := some msg, fb := s.fb.resetMotionFlag,
                processing := false, isProcessing := false }, none)

/-! ## Audio: ttsService (`playAudioFromBase64`, `fallbackTTS`,
`speakActionFeedback`, `stopAudio`)

`HTMLAudioElement`s are identified by consecutive numbers; `playingElems`
lists the elements currently playing, `synthUtterances` the utterances
queued in `speechSynthesis` (`speechSynthesis.speak` appends to the browser
queue; it does not interrupt). -/

/-- The module state of ttsService plus the observable browser audio state. -/
structure AudioState where
  currentAudio : Option ℕ
  isPlaying : Bool
  playingElems : List ℕ
  synthUtterances : List String
  nextId : ℕ
deriving DecidableEq

/-- The initial module state: no element, nothing playing. -/
def AudioState.initial : AudioState := ⟨none, false, [], [], 0⟩

/-- `playAudioFromBase64`: if a tracked element is playing, `pause()` it and
drop the reference; then (when the base64 payload decodes, `decodeOk`) create
a fresh element, remember it, mark playing and `play()` it.  When decoding
throws, the promise rejects with the state left as after the pause step. -/
def playAudioFromBase64 (s : AudioState) (decodeOk : Bool) : AudioState :=
  let s1 :=
    match s.currentAudio with
    | some i =>
        if s.isPlaying then
          { s with playingElems := s.playingElems.erase i, currentAudio := none }
        else s
    | none => s
  if decodeOk then
    { s1 with currentAudio := some s1.nextId, isPlaying := true,
              playingElems := s1.playingElems ++ [s1.nextId], nextId := s1.nextId + 1 }
  else s1

/-- `fallbackTTS`: hands the text to `speechSynthesis.speak`, which only
appends to the utterance queue — nothing currently playing is paused or
cancelled. -/
def fallbackTTS (s : AudioState) (text : String) : AudioState :=
  { s with synthUtterances := s.synthUtterances ++ [text] }

/-- `stopAudio`: pause and drop the tracked element if playing, then
`speechSynthesis.cancel()` empties the utterance queue. -/
def stopAudio (s : AudioState) : AudioState :=
  let s1 :=
    match s.currentAudio with
    | some i =>
        if s.isPlaying then
          { s with playingElems := s.playingElems.erase i, currentAudio := none,
                   isPlaying := false }
        else s
    | none => s
  { s1 with synthUtterances := [] }

/-- `speakActionFeedback`: try the backend audio (`generateAudio` +
`playAudioFromBase64`); on any failure of that path fall back to
`fallbackTTS` with the feedback message.  `remoteOk` is whether
`generateAudio` succeeded, `decodeOk` whether the returned payload decoded. -/
def speakActionFeedback (s : AudioState) (remoteOk decodeOk : Bool)
    (fallbackText : String) : AudioState :=
  if remoteOk then
    let s1 := playAudioFromBase64 s decodeOk
    if decodeOk then s1 else fallbackTTS s1 fallbackText
  else fallbackTTS s fallbackText

/-- The number of audio sessions alive: playing elements plus utterances
queued or speaking in the speech-synthesis queue. -/
def AudioState.activeSessions (s : AudioState) : ℕ :=
  s.playingElems.length + s.synthUtterances.length

/-- Consistency of the ttsService bookkeeping with the browser state, true of
every state reachable from `AudioState.initial`: the playing elements are
exactly the tracked `currentAudio` when `isPlaying`, and every tracked id was
allocated before `nextId`. -/
def ElemInv (s : AudioState) : Prop :=
  (s.playingElems = match s.currentAudio with
    | some i => if s.isPlaying then [i] else []
    | none => []) ∧
  (match s.currentAudio with
    | some i => i < s.nextId
    | none => True)

/-! ## Pose detector initialization
(`src/frontend/src/services/poseDetection.ts`)

`initializePoseDetector` tries MoveNet Lightning, then in its `catch` MoveNet
Thunder, then in that `catch` BlazePose Lite; only when the innermost attempt
also throws does it throw the summary initialization error.  Each
`createDetector` call is external, so its outcome is an explicit input. -/

inductive PoseModel where
  | moveNetLightning
  | moveNetThunder
  | blazePoseLite
deriving DecidableEq

/-- A successfully constructed detector handle. -/
structure Detector where
  model : PoseModel
deriving DecidableEq

/-- The message of the error thrown after every variant failed. -/
def poseInitFailureMessage : String :=
  "Failed to initialize pose detector. Please check your internet connection and try refreshing the page."

/-- The nested try/catch chain of `initializePoseDetector` over the outcomes
of the three `createDetector` attempts. -/
def initializePoseDetector (lightning thunder blaze : Except String Detector) :
    Except String Detector :=
  match lightning with
  | Except.ok d => Except.ok d
  | Except.error _ =>
      match thunder with
      | Except.ok d => Except.ok d
      | Except.error _ =>
          match blaze with
          | Except.ok d => Except.ok d
          | Except.error _ => Except.error poseInitFailureMessage

/-! ## Helper lemmas -/

/-- The integer form of the pixel comparison agrees with the grayscale form
of the source: the luminance deltas exceed `30` iff the channel sums differ
by more than `90`. -/
theorem pixelChanged_iff_grayscale (p q : Pixel) :
    pixelChanged p q = true ↔ 30 < |grayscale p - grayscale q| := by
  unfold pixelChanged grayscale
  rw [decide_eq_true_iff]
  have h3 : ((p.r : ℚ) + (p.g : ℚ) + (p.b : ℚ)) / 3 - ((q.r : ℚ) + (q.g : ℚ) + (q.b : ℚ)) / 3
      = (((p.r + p.g + p.b : ℤ) - (q.r + q.g + q.b : ℤ) : ℤ) : ℚ) / 3 := by
    push_cast
    ring
  rw [h3, abs_div]
  have h30 : (3:ℚ) ≠ 0 := by norm_num
  rw [abs_of_pos (by norm_num : (0:ℚ) < 3)]
  rw [lt_div_iff₀ (by norm_num : (0:ℚ) < 3)]
  have habs : ∀ z : ℤ, |(z : ℚ)| = ((z.natAbs : ℕ) : ℚ) := by
    intro z
    simp [Int.cast_natAbs]
  rw [habs]
  constructor
  · intro h
    have : ((90 : ℕ) : ℚ) < (((p.r + p.g + p.b : ℤ) - (q.r + q.g + q.b : ℤ)).natAbs : ℚ) := by
      exact_mod_cast Nat.cast_lt.mpr h
    calc (30 : ℚ) * 3 = ((90 : ℕ) : ℚ) := by norm_num
    _ < _ := this
  · intro h
    have : ((90 : ℕ) : ℚ) < (((p.r + p.g + p.b : ℤ) - (q.r + q.g + q.b : ℤ)).natAbs : ℚ) := by
      calc ((90 : ℕ) : ℚ) = (30 : ℚ) * 3 := by norm_num
      _ < _ := h
    exact_mod_cast this

/-- The zip-based changed-pixel count equals the index-based count when the
rasters have the same length. -/
theorem countChanged_eq_range (d1 : List Pixel) :
    ∀ d2 : List Pixel, d1.length = d2.length →
    countChanged d1 d2 =
      ((List.range d1.length).filter fun i =>
        pixelChanged (d1.getD i ⟨0, 0, 0⟩) (d2.getD i ⟨0, 0, 0⟩)).length := by
  induction d1 with
  | nil => intro d2 h; simp [countChanged]
  | cons p t ih =>
    intro d2 h
    cases d2 with
    | nil => simp at h
    | cons q t2 =>
      have ht : t.length = t2.length := by simpa using h
      have hrange : List.range (p :: t).length = 0 :: (List.range t.length).map Nat.succ := by
        simp [List.range_succ_eq_map]
      rw [hrange]
      by_cases hpq : pixelChanged p q = true
      · simp only [countChanged, List.zip_cons_cons, List.filter_cons, hpq, List.length_cons,
          List.getD_cons_zero, if_pos]
        rw [List.filter_map, List.length_map]
        simp only [Function.comp_def, List.getD_cons_succ]
        have := ih t2 ht
        simp only [countChanged] at this
        omega
      · simp only [countChanged, List.zip_cons_cons, List.filter_cons, hpq, List.length_cons,
          List.getD_cons_zero]
        simp only [Bool.false_eq_true, if_false, hpq]
        rw [List.filter_map, List.length_map]
        simp only [Function.comp_def, List.getD_cons_succ]
        have := ih t2 ht
        simp only [countChanged] at this
        exact this

/-- `mkRat` is integer division in `ℚ`. -/
theorem mkRat_eq_div_cast (n : ℤ) (d : ℕ) : mkRat n d = (n : ℚ) / (d : ℚ) := by
  rw [Rat.mkRat_eq_divInt, Rat.divInt_eq_div]
  norm_num

theorem getLast?_concat_eq {α : Type} (l : List α) (a : α) : (l ++ [a]).getLast? = some a := by
  rw [List.getLast?_append_cons]
  rfl

theorem tail_concat_cases {α : Type} (l : List α) (a : α) :
    (l ++ [a]).tail = [] ∨ (l ++ [a]).tail.getLast? = some a := by
  cases l with
  | nil => left; rfl
  | cons b t =>
      right
      simp only [List.cons_append, List.tail_cons]
      exact getLast?_concat_eq t a

theorem getLast?_replicate_succ {α : Type} (n : ℕ) (a : α) :
    (List.replicate (n + 1) a).getLast? = some a := by
  rw [List.replicate_succ']
  exact getLast?_concat_eq _ a

/-! ### Field bookkeeping for the buffer operations -/

theorem updateMotion_buffer (fb : FrameBuffer) (img : ImageData) :
    (fb.updateMotion img).buffer = fb.buffer := by
  rw [FrameBuffer.updateMotion]
  cases fb.buffer.getLast? with
  | none => rfl
  | some lf =>
      by_cases hc : fb.motionThreshold < calculateMotion lf.imageData img <;> simp [hc]

theorem updateMotion_maxFrames (fb : FrameBuffer) (img : ImageData) :
    (fb.updateMotion img).maxFrames = fb.maxFrames := by
  rw [FrameBuffer.updateMotion]
  cases fb.buffer.getLast? with
  | none => rfl
  | some lf =>
      by_cases hc : fb.motionThreshold < calculateMotion lf.imageData img <;> simp [hc]

theorem updateMotion_frameInterval (fb : FrameBuffer) (img : ImageData) :
    (fb.updateMotion img).frameInterval = fb.frameInterval := by
  rw [FrameBuffer.updateMotion]
  cases fb.buffer.getLast? with
  | none => rfl
  | some lf =>
      by_cases hc : fb.motionThreshold < calculateMotion lf.imageData img <;> simp [hc]

theorem updateMotion_motionThreshold (fb : FrameBuffer) (img : ImageData) :
    (fb.updateMotion img).motionThreshold = fb.motionThreshold := by
  rw [FrameBuffer.updateMotion]
  cases fb.buffer.getLast? with
  | none => rfl
  | some lf =>
      by_cases hc : fb.motionThreshold < calculateMotion lf.imageData img <;> simp [hc]

theorem updateMotion_lastCaptureTime (fb : FrameBuffer) (img : ImageData) :
    (fb.updateMotion img).lastCaptureTime = fb.lastCaptureTime := by
  rw [FrameBuffer.updateMotion]
  cases fb.buffer.getLast? with
  | none => rfl
  | some lf =>
      by_cases hc : fb.motionThreshold < calculateMotion lf.imageData img <;> simp [hc]

/-- The flag never goes from `true` back to `false` in the motion check. -/
theorem updateMotion_flag_mono (fb : FrameBuffer) (img : ImageData)
    (h : fb.hasSignificantMotion = true) :
    (fb.updateMotion img).hasSignificantMotion = true := by
  rw [FrameBuffer.updateMotion]
  cases fb.buffer.getLast? with
  | none => exact h
  | some lf =>
      by_cases hc : fb.motionThreshold < calculateMotion lf.imageData img <;> simp [hc, h]

/-- The flag stays `false` when the incoming frame does not move past the
threshold relative to the last buffered frame. -/
theorem updateMotion_flag_still (fb : FrameBuffer) (img : ImageData)
    (hm : fb.hasSignificantMotion = false)
    (hst : ∀ lastF, fb.buffer.getLast? = some lastF →
      calculateMotion lastF.imageData img ≤ fb.motionThreshold) :
    (fb.updateMotion img).hasSignificantMotion = false := by
  cases hL : fb.buffer.getLast? with
  | none =>
      rw [FrameBuffer.updateMotion, hL]
      exact hm
  | some lf =>
      have h := hst lf hL
      simp only [FrameBuffer.updateMotion, hL]
      rw [if_neg (not_lt.mpr h)]
      exact hm

/-- The flag is set when the incoming frame moves past the threshold. -/
theorem updateMotion_flag_set (fb : FrameBuffer) (img : ImageData) (lastF : FrameData)
    (hL : fb.buffer.getLast? = some lastF)
    (hc : fb.motionThreshold < calculateMotion lastF.imageData img) :
    (fb.updateMotion img).hasSignificantMotion = true := by
  simp only [FrameBuffer.updateMotion, hL]
  rw [if_pos hc]

/-- The motion check ors the old flag with the comparison outcome. -/
theorem updateMotion_flag_or (fb : FrameBuffer) (img : ImageData) (lastF : FrameData)
    (hL : fb.buffer.getLast? = some lastF) :
    (fb.updateMotion img).hasSignificantMotion =
      (fb.hasSignificantMotion
        || decide (fb.motionThreshold < calculateMotion lastF.imageData img)) := by
  simp only [FrameBuffer.updateMotion, hL]
  by_cases hc : fb.motionThreshold < calculateMotion lastF.imageData img
  · simp [hc]
  · simp [hc]

theorem pushRecord_flag (fb : FrameBuffer) (rec : FrameData) :
    (fb.pushRecord rec).hasSignificantMotion = fb.hasSignificantMotion := rfl

theorem pushRecord_maxFrames (fb : FrameBuffer) (rec : FrameData) :
    (fb.pushRecord rec).maxFrames = fb.maxFrames := rfl

theorem pushRecord_frameInterval (fb : FrameBuffer) (rec : FrameData) :
    (fb.pushRecord rec).frameInterval = fb.frameInterval := rfl

theorem pushRecord_motionThreshold (fb : FrameBuffer) (rec : FrameData) :
    (fb.pushRecord rec).motionThreshold = fb.motionThreshold := rfl

theorem pushRecord_lastCaptureTime (fb : FrameBuffer) (rec : FrameData) :
    (fb.pushRecord rec).lastCaptureTime = fb.lastCaptureTime := rfl

/-- After a push the buffer is either empty (capacity `0` with an initially
empty buffer) or ends in the record just pushed. -/
theorem pushRecord_getLast (fb : FrameBuffer) (rec : FrameData) :
    (fb.pushRecord rec).buffer = [] ∨ (fb.pushRecord rec).buffer.getLast? = some rec := by
  rw [FrameBuffer.pushRecord]
  by_cases h : fb.maxFrames < (fb.buffer ++ [rec]).length
  · simp only [if_pos h]
    exact tail_concat_cases fb.buffer rec
  · simp only [if_neg h]
    right
    exact getLast?_concat_eq fb.buffer rec

/-- The nested trailing `if` of `addFrame` computes `isReady` of the new
state. -/
theorem nestedIf_eq_isReady (fb : FrameBuffer) :
    (if fb.maxFrames ≤ fb.buffer.length then
        (if fb.hasSignificantMotion then true else false)
      else false) = fb.isReady := by
  rw [FrameBuffer.isReady]
  by_cases h1 : fb.maxFrames ≤ fb.buffer.length
  · by_cases h2 : fb.hasSignificantMotion <;> simp [h1, h2]
  · simp [h1]

/-- A call inside the throttle interval is a no-op. -/
theorem addFrame_throttled (fb : FrameBuffer) (now : ℕ) (b : String) (img : ImageData)
    (h : now < fb.lastCaptureTime + fb.frameInterval) :
    fb.addFrame now b img = (false, fb) := by
  rw [FrameBuffer.addFrame, if_pos (by omega)]

/-- An accepted call runs the motion check against the last buffered frame,
pushes the record and reports readiness of the new state. -/
theorem addFrame_accepted (fb : FrameBuffer) (now : ℕ) (b : String) (img : ImageData)
    (h : fb.lastCaptureTime + fb.frameInterval ≤ now) :
    fb.addFrame now b img =
      ((((({ fb with lastCaptureTime := now } : FrameBuffer).updateMotion img).pushRecord
          ⟨b, img, now⟩).isReady,
        (({ fb with lastCaptureTime := now } : FrameBuffer).updateMotion img).pushRecord
          ⟨b, img, now⟩)) := by
  have hc : ¬((now : ℤ) - (fb.lastCaptureTime : ℤ) < (fb.frameInterval : ℤ)) := by
    omega
  rw [FrameBuffer.addFrame, if_neg hc]
  simp only [nestedIf_eq_isReady]

theorem allStill_tail (thr : ℚ) (a : PushInput) (l : List PushInput)
    (h : allStill thr (a :: l) = true) : allStill thr l = true := by
  cases l with
  | nil => rfl
  | cons b r =>
      rw [allStill, Bool.and_eq_true] at h
      exact h.2

theorem allStill_head (thr : ℚ) (a b : PushInput) (l : List PushInput)
    (h : allStill thr (a :: b :: l) = true) :
    calculateMotion a.imageData b.imageData ≤ thr := by
  rw [allStill, Bool.and_eq_true, decide_eq_true_iff] at h
  exact h.1

/-- Invariant of a static scene: with the motion flag down, pushes that are
never throttled and whose frames never move past the threshold (relative to
each other and to the last already-buffered frame) keep every `addFrame`
result `false` and the flag down. -/
theorem addFrames_static (inputs : List PushInput) :
    ∀ fb : FrameBuffer, fb.hasSignificantMotion = false →
      allSpaced fb.lastCaptureTime fb.frameInterval inputs = true →
      allStill fb.motionThreshold inputs = true →
      (∀ lastF, fb.buffer.getLast? = some lastF →
        ∀ inp, inputs.head? = some inp →
          calculateMotion lastF.imageData inp.imageData ≤ fb.motionThreshold) →
      (fb.addFrames inputs).1.all (fun r => !r) = true
        ∧ (fb.addFrames inputs).2.hasSignificantMotion = false := by
  induction inputs with
  | nil =>
      intro fb hm _ _ _
      exact ⟨rfl, hm⟩
  | cons inp rest ih =>
      intro fb hm hsp hst hlast
      rw [allSpaced, Bool.and_eq_true, decide_eq_true_iff] at hsp
      obtain ⟨hacc, hspr⟩ := hsp
      have hstep := addFrame_accepted fb inp.now inp.base64 inp.imageData hacc
      set fbt : FrameBuffer := { fb with lastCaptureTime := inp.now } with hfbt
      set fb3 : FrameBuffer :=
        (fbt.updateMotion inp.imageData).pushRecord ⟨inp.base64, inp.imageData, inp.now⟩
        with hfb3
      have hflag : fb3.hasSignificantMotion = false := by
        rw [hfb3, pushRecord_flag]
        apply updateMotion_flag_still
        · exact hm
        · intro lastF hl
          exact hlast lastF hl inp rfl
      have hready : fb3.isReady = false := by
        rw [FrameBuffer.isReady, hflag, Bool.and_false]
      have hIH := ih fb3 hflag
        (by
          have ht : fb3.lastCaptureTime = inp.now := by
            rw [hfb3, pushRecord_lastCaptureTime, updateMotion_lastCaptureTime]
          have hi : fb3.frameInterval = fb.frameInterval := by
            rw [hfb3, pushRecord_frameInterval, updateMotion_frameInterval]
          rw [ht, hi]
          exact hspr)
        (by
          have hthr : fb3.motionThreshold = fb.motionThreshold := by
            rw [hfb3, pushRecord_motionThreshold, updateMotion_motionThreshold]
          rw [hthr]
          exact allStill_tail _ _ _ hst)
        (by
          intro lastF hl inp2 h2
          have hthr : fb3.motionThreshold = fb.motionThreshold := by
            rw [hfb3, pushRecord_motionThreshold, updateMotion_motionThreshold]
          rw [hthr]
          cases rest with
          | nil => simp at h2
          | cons b r =>
              have hb : b = inp2 := by simpa using h2
              rcases pushRecord_getLast (fbt.updateMotion inp.imageData)
                  ⟨inp.base64, inp.imageData, inp.now⟩ with hemp | hlastnew
              · rw [hfb3] at hl
                rw [hemp] at hl
                simp at hl
              · rw [hfb3] at hl
                rw [hlastnew] at hl
                have : lastF = ⟨inp.base64, inp.imageData, inp.now⟩ := by
                  injection hl with h
                  exact h.symm
                rw [this, ← hb]
                exact allStill_head _ _ _ _ hst)
      constructor
      · rw [FrameBuffer.addFrames]
        simp only [hstep]
        rw [List.all_cons, Bool.and_eq_true]
        refine ⟨?_, hIH.1⟩
        rw [hready]
        rfl
      · rw [FrameBuffer.addFrames]
        simp only [hstep]
        exact hIH.2

/-! ## Concrete inputs used by the witnesses -/

/-- A one-pixel black frame. -/
def imgBlack : ImageData := ⟨1, 1, [⟨0, 0, 0⟩]⟩

/-- A one-pixel white frame of the same dimensions. -/
def imgWhite : ImageData := ⟨1, 1, [⟨255, 255, 255⟩]⟩

/-- A two-pixel frame. -/
def imgPairA : ImageData := ⟨2, 1, [⟨0, 0, 0⟩, ⟨10, 10, 10⟩]⟩

/-- A two-pixel frame whose first pixel differs strongly from `imgPairA`. -/
def imgPairB : ImageData := ⟨2, 1, [⟨200, 200, 200⟩, ⟨10, 10, 10⟩]⟩

/-- A frame with mismatching dimensions. -/
def imgWide : ImageData := ⟨3, 1, [⟨0, 0, 0⟩, ⟨0, 0, 0⟩, ⟨0, 0, 0⟩]⟩

/-- A buffered black frame. -/
def recBlack : FrameData := ⟨"f", imgBlack, 0⟩

/-- A buffer at capacity with the default parameters, motion flag down. -/
def fb8c : FrameBuffer := ⟨List.replicate 8 recBlack, 8, 200, mkRat 15 100, 0, false⟩

/-- A buffer holding three frames of the default capacity `8`. -/
def fb3c : FrameBuffer :=
  ⟨[⟨"a", imgBlack, 200⟩, ⟨"b", imgBlack, 400⟩, ⟨"c", imgWhite, 600⟩], 8, 200, mkRat 15 100,
    600, true⟩

/-- Three pushes of an unchanging scene, spaced 200 ms apart. -/
def staticInputs : List PushInput :=
  [⟨200, "a", imgBlack⟩, ⟨400, "b", imgBlack⟩, ⟨600, "c", imgBlack⟩]

/-! ## C1 -/

/-- Claim C1: an accepted push reports `true` exactly when, after the push,
the window holds at least the full capacity of frames and the `motionSeen`
flag is set (so `addFrame` and `isReady` agree); and for every sequence of
accepted pushes of a static scene — adjacent motion scores never above the
threshold — into a fresh buffer, `addFrame` never reports `true`. -/
theorem addFrame_ready_iff_and_static_never :
    (∀ (fb : FrameBuffer) (now : ℕ) (b : String) (img : ImageData),
        fb.lastCaptureTime + fb.frameInterval ≤ now →
        ((fb.addFrame now b img).1 = true ↔
          ((fb.addFrame now b img).2.maxFrames ≤ (fb.addFrame now b img).2.buffer.length
            ∧ (fb.addFrame now b img).2.hasSignificantMotion = true)))
  ∧ (∀ (cap interval : ℕ) (thr : ℚ) (inputs : List PushInput),
        allSpaced 0 interval inputs = true →
        allStill thr inputs = true →
        ((FrameBuffer.init cap interval thr).addFrames inputs).1.all (fun r => !r) = true) := by
  constructor
  · intro fb now b img h
    rw [addFrame_accepted fb now b img h]
    rw [FrameBuffer.isReady, Bool.and_eq_true, decide_eq_true_iff]
  · intro cap interval thr inputs hsp hst
    refine (addFrames_static inputs (FrameBuffer.init cap interval thr) rfl hsp hst ?_).1
    intro lastF hl
    simp [FrameBuffer.init] at hl

/-- Witness for C1: an accepted push on a full buffer, and a static
three-push run on a fresh default buffer on which every result is `false`. -/
theorem addFrame_ready_iff_and_static_never_witness :
    ((fb8c.addFrame 1000 "b" imgWhite).1 = true ↔
      ((fb8c.addFrame 1000 "b" imgWhite).2.maxFrames
          ≤ (fb8c.addFrame 1000 "b" imgWhite).2.buffer.length
        ∧ (fb8c.addFrame 1000 "b" imgWhite).2.hasSignificantMotion = true))
  ∧ ((FrameBuffer.init 8 200 (mkRat 15 100)).addFrames staticInputs).1.all
      (fun r => !r) = true :=
  ⟨addFrame_ready_iff_and_static_never.1 fb8c 1000 "b" imgWhite (by decide),
   addFrame_ready_iff_and_static_never.2 8 200 (mkRat 15 100) staticInputs
     (by decide) (by decide)⟩

/-! ## C3 -/

/-- Counterexample to C3 as stated: on an empty buffer `getFrames()` returns
the empty sequence, not a capacity-length one. -/
theorem getFrames_empty_counterexample :
    FrameBuffer.initDefault.getFrames.1.length = 0
      ∧ FrameBuffer.initDefault.maxFrames = 8 := by
  constructor
  · rfl
  · rfl

/-- Claim C3 as amended: for every buffer whose window is non-empty and not
above capacity, `getFrames()` returns exactly capacity-many encoded frames,
the stored window followed by copies of the last frame's encoding. -/
theorem getFrames_pads_to_capacity (fb : FrameBuffer) (lastF : FrameData)
    (hl : fb.buffer.getLast? = some lastF) (hle : fb.buffer.length ≤ fb.maxFrames) :
    fb.getFrames.1 = fb.buffer.map (fun f => f.base64)
        ++ List.replicate (fb.maxFrames - fb.buffer.length) lastF.base64
      ∧ fb.getFrames.1.length = fb.maxFrames := by
  by_cases h : fb.buffer.length < fb.maxFrames
  · constructor
    · rw [FrameBuffer.getFrames]
      simp only [if_pos h, hl]
      rw [List.map_append, List.map_replicate]
    · rw [FrameBuffer.getFrames]
      simp only [if_pos h, hl]
      rw [List.length_map, List.length_append, List.length_replicate]
      omega
  · have heq : fb.buffer.length = fb.maxFrames := by omega
    constructor
    · rw [FrameBuffer.getFrames]
      simp only [if_neg h]
      rw [heq]
      simp
    · rw [FrameBuffer.getFrames]
      simp only [if_neg h]
      rw [List.length_map, heq]

/-- Witness for C3 (amended) on a three-frame default-capacity buffer. -/
theorem getFrames_pads_to_capacity_witness :
    fb3c.getFrames.1 = fb3c.buffer.map (fun f => f.base64)
        ++ List.replicate (fb3c.maxFrames - fb3c.buffer.length)
            (FrameData.base64 ⟨"c", imgWhite, 600⟩)
      ∧ fb3c.getFrames.1.length = fb3c.maxFrames :=
  getFrames_pads_to_capacity fb3c ⟨"c", imgWhite, 600⟩ (by decide) (by decide)

/-! ## C4 -/

/-- Claim C4: for frames of equal dimensions (and hence, for genuine
`ImageData` rasters, equally long pixel arrays) the motion score is the
number of pixels whose grayscale luminance — the mean of the three channel
intensities — changes by strictly more than `30`, divided by the total pixel
count; for frames differing in width or height the score is exactly `1`. -/
theorem calculateMotion_spec :
    (∀ f1 f2 : ImageData, f1.width = f2.width → f1.height = f2.height →
      f1.data.length = f2.data.length →
      calculateMotion f1 f2 =
        ((((List.range f1.data.length).filter fun i =>
            decide (30 < |grayscale (f1.data.getD i ⟨0, 0, 0⟩) -
              grayscale (f2.data.getD i ⟨0, 0, 0⟩)|)).length : ℕ) : ℚ) /
          ((f1.data.length : ℕ) : ℚ))
  ∧ (∀ f1 f2 : ImageData, f1.width ≠ f2.width ∨ f1.height ≠ f2.height →
      calculateMotion f1 f2 = 1) := by
  constructor
  · intro f1 f2 hw hh hlen
    have hcond : ¬(f1.width ≠ f2.width ∨ f1.height ≠ f2.height) := by
      push_neg
      exact ⟨hw, hh⟩
    rw [calculateMotion, if_neg hcond, mkRat_eq_div_cast]
    have hfilter :
        ((List.range f1.data.length).filter fun i =>
            pixelChanged (f1.data.getD i ⟨0, 0, 0⟩) (f2.data.getD i ⟨0, 0, 0⟩)) =
        ((List.range f1.data.length).filter fun i =>
            decide (30 < |grayscale (f1.data.getD i ⟨0, 0, 0⟩) -
              grayscale (f2.data.getD i ⟨0, 0, 0⟩)|)) := by
      apply List.filter_congr
      intro i _
      by_cases hc : 30 < |grayscale (f1.data.getD i ⟨0, 0, 0⟩) -
          grayscale (f2.data.getD i ⟨0, 0, 0⟩)|
      · rw [(pixelChanged_iff_grayscale _ _).mpr hc]
        exact (decide_eq_true hc).symm
      · have hf : pixelChanged (f1.data.getD i ⟨0, 0, 0⟩) (f2.data.getD i ⟨0, 0, 0⟩) = false := by
          rw [Bool.eq_false_iff]
          intro hh
          exact hc ((pixelChanged_iff_grayscale _ _).mp hh)
        rw [hf]
        exact (decide_eq_false hc).symm
    rw [countChanged_eq_range f1.data f2.data hlen, hfilter]
    push_cast
    ring
  · intro f1 f2 hne
    rw [calculateMotion, if_pos hne]

/-- Witness for C4 at concrete frames: a 2-pixel pair where exactly the first
pixel changes, and a dimension mismatch. -/
theorem calculateMotion_spec_witness :
    (calculateMotion imgPairA imgPairB =
        ((((List.range imgPairA.data.length).filter fun i =>
            decide (30 < |grayscale (imgPairA.data.getD i ⟨0, 0, 0⟩) -
              grayscale (imgPairB.data.getD i ⟨0, 0, 0⟩)|)).length : ℕ) : ℚ) /
          ((imgPairA.data.length : ℕ) : ℚ))
  ∧ calculateMotion imgPairA imgWide = 1 :=
  ⟨calculateMotion_spec.1 imgPairA imgPairB rfl rfl rfl,
   calculateMotion_spec.2 imgPairA imgWide (by decide)⟩

/-! ## C5 -/

/-- Claim C5: `motionSeen` is monotone within a window cycle — once true it
survives every further `addFrame` (throttled or accepted) and every
`getFrames`; an accepted push whose motion score exceeds the threshold sets
it; and only `resetMotionFlag()` and `clear()` put it back to `false`. -/
theorem motionSeen_monotone :
    (∀ (fb : FrameBuffer) (now : ℕ) (b : String) (img : ImageData),
        fb.hasSignificantMotion = true →
        (fb.addFrame now b img).2.hasSignificantMotion = true)
  ∧ (∀ fb : FrameBuffer, fb.getFrames.2.hasSignificantMotion = fb.hasSignificantMotion)
  ∧ (∀ (fb : FrameBuffer) (now : ℕ) (b : String) (img : ImageData) (lastF : FrameData),
        fb.buffer.getLast? = some lastF →
        fb.lastCaptureTime + fb.frameInterval ≤ now →
        fb.motionThreshold < calculateMotion lastF.imageData img →
        (fb.addFrame now b img).2.hasSignificantMotion = true)
  ∧ (∀ fb : FrameBuffer, fb.resetMotionFlag.hasSignificantMotion = false
        ∧ fb.clear.hasSignificantMotion = false) := by
  refine ⟨?_, ?_, ?_, ?_⟩
  · intro fb now b img h
    by_cases hth : now < fb.lastCaptureTime + fb.frameInterval
    · rw [addFrame_throttled fb now b img hth]
      exact h
    · rw [addFrame_accepted fb now b img (by omega)]
      rw [pushRecord_flag]
      exact updateMotion_flag_mono _ img h
  · intro fb
    rfl
  · intro fb now b img lastF hL hacc hc
    rw [addFrame_accepted fb now b img hacc]
    rw [pushRecord_flag]
    exact updateMotion_flag_set _ img lastF hL hc
  · intro fb
    exact ⟨rfl, rfl⟩

/-- Witness for C5: the flag survives a push on a flagged buffer; a strong
motion push on `fb8c` raises it; the explicit resets lower it. -/
theorem motionSeen_monotone_witness :
    ((fb3c.addFrame 1000 "d" imgBlack).2.hasSignificantMotion = true)
  ∧ ((fb8c.addFrame 1000 "b" imgWhite).2.hasSignificantMotion = true)
  ∧ (fb3c.resetMotionFlag.hasSignificantMotion = false
      ∧ fb3c.clear.hasSignificantMotion = false) :=
  ⟨motionSeen_monotone.1 fb3c 1000 "d" imgBlack (by decide),
   motionSeen_monotone.2.2.1 fb8c 1000 "b" imgWhite recBlack (by decide) (by decide)
     (by decide),
   motionSeen_monotone.2.2.2 fb3c⟩

/-! ## C10 -/

/-- Claim C10 (implicit): `getFrames()` on a non-empty window below capacity
mutates the stored buffer — the last record is appended until the window is
at capacity, and it stays the last record, so the next accepted push compares
motion against the duplicated frame and, with the window now at capacity,
evicts the front record; on an empty window `getFrames()` pads nothing,
leaves the state untouched and returns the empty sequence. -/
theorem getFrames_mutation :
    (∀ (fb : FrameBuffer) (lastF : FrameData),
        fb.buffer.getLast? = some lastF → fb.buffer.length < fb.maxFrames →
        ((fb.getFrames.2.buffer = fb.buffer
            ++ List.replicate (fb.maxFrames - fb.buffer.length) lastF)
          ∧ fb.getFrames.2.buffer.length = fb.maxFrames
          ∧ fb.getFrames.2.buffer.getLast? = some lastF))
  ∧ (∀ fb : FrameBuffer, fb.buffer = [] → fb.getFrames = ([], fb))
  ∧ (∀ (fb : FrameBuffer) (lastF : FrameData) (now : ℕ) (b : String) (img : ImageData),
        fb.buffer.getLast? = some lastF →
        fb.lastCaptureTime + fb.frameInterval ≤ now →
        ((fb.addFrame now b img).2.hasSignificantMotion =
            (fb.hasSignificantMotion
              || decide (fb.motionThreshold < calculateMotion lastF.imageData img))
          ∧ (fb.maxFrames ≤ fb.buffer.length →
              (fb.addFrame now b img).2.buffer = fb.buffer.tail ++ [⟨b, img, now⟩]))) := by
  refine ⟨?_, ?_, ?_⟩
  · intro fb lastF hl h
    obtain ⟨m, hm⟩ : ∃ m, fb.maxFrames - fb.buffer.length = m + 1 :=
      ⟨fb.maxFrames - fb.buffer.length - 1, by omega⟩
    refine ⟨?_, ?_, ?_⟩
    · rw [FrameBuffer.getFrames]
      simp only [if_pos h, hl]
    · rw [FrameBuffer.getFrames]
      simp only [if_pos h, hl]
      rw [List.length_append, List.length_replicate]
      omega
    · rw [FrameBuffer.getFrames]
      simp only [if_pos h, hl]
      rw [List.getLast?_append_of_ne_nil]
      · rw [hm]
        exact getLast?_replicate_succ m lastF
      · rw [hm]
        simp [List.replicate_succ]
  · intro fb hb
    obtain ⟨buf, mx, fi, mt, lt, hmfl⟩ := fb
    simp only at hb
    subst hb
    rw [FrameBuffer.getFrames]
    by_cases h0 : (List.length ([] : List FrameData)) < mx
    · simp [if_pos h0]
    · simp [if_neg h0]
  · intro fb lastF now b img hL hacc
    constructor
    · rw [addFrame_accepted fb now b img hacc]
      rw [pushRecord_flag]
      exact updateMotion_flag_or _ img lastF hL
    · intro hcap
      obtain ⟨a, t, hbt⟩ : ∃ a t, fb.buffer = a :: t := by
        cases hcase : fb.buffer with
        | nil => rw [hcase] at hL; simp at hL
        | cons a t => exact ⟨a, t, rfl⟩
      have hbuf : (({ fb with lastCaptureTime := now } : FrameBuffer).updateMotion
          img).buffer = fb.buffer := updateMotion_buffer _ img
      have hmax : (({ fb with lastCaptureTime := now } : FrameBuffer).updateMotion
          img).maxFrames = fb.maxFrames := updateMotion_maxFrames _ img
      rw [addFrame_accepted fb now b img hacc, FrameBuffer.pushRecord]
      simp only [hbuf, hmax]
      rw [if_pos (by rw [List.length_append]; simp; omega)]
      rw [hbt]
      rfl

/-- Witness for C10 at a three-frame buffer, the empty default buffer, and a
full buffer receiving an accepted push. -/
theorem getFrames_mutation_witness :
    ((fb3c.getFrames.2.buffer = fb3c.buffer
        ++ List.replicate (fb3c.maxFrames - fb3c.buffer.length) ⟨"c", imgWhite, 600⟩)
      ∧ fb3c.getFrames.2.buffer.length = fb3c.maxFrames
      ∧ fb3c.getFrames.2.buffer.getLast? = some ⟨"c", imgWhite, 600⟩)
  ∧ FrameBuffer.initDefault.getFrames = ([], FrameBuffer.initDefault)
  ∧ ((fb8c.addFrame 1000 "b" imgWhite).2.hasSignificantMotion =
        (fb8c.hasSignificantMotion
          || decide (fb8c.motionThreshold < calculateMotion recBlack.imageData imgWhite))
      ∧ (fb8c.maxFrames ≤ fb8c.buffer.length →
          (fb8c.addFrame 1000 "b" imgWhite).2.buffer
            = fb8c.buffer.tail ++ [⟨"b", imgWhite, 1000⟩])) :=
  ⟨getFrames_mutation.1 fb3c ⟨"c", imgWhite, 600⟩ (by decide) (by decide),
   getFrames_mutation.2.1 FrameBuffer.initDefault rfl,
   getFrames_mutation.2.2 fb8c recBlack 1000 "b" imgWhite (by decide) (by decide)⟩

/-! ## C2, C6, C7: coordinator states for the witnesses -/

/-- An idle coordinator: camera active, no request in flight, fresh refs,
full buffer `fb8c` behind it. -/
def coordIdle : CoordState :=
  ⟨true, none, false, none, "", [], (640, 480), false, 0, none, 0, fb8c⟩

/-- A coordinator with an unresolved request (in-flight guard set). -/
def coordBusy : CoordState :=
  ⟨true, none, true, none, "", [], (640, 480), true, 400, none, 0, fb8c⟩

/-- A coordinator that last spoke the label `"High"`. -/
def coordSeenHigh : CoordState :=
  ⟨true, none, false, none, "", [], (640, 480), false, 0, some "High", 1, fb8c⟩

/-- A concrete successful backend result. -/
def resHigh : PredictionResponse := ⟨"High", mkRat 91 100, "Great shot!"⟩

/-! ## C2 -/

/-- Claim C2: while the in-flight guard is set every ready signal is dropped
without state change or remote call; the resolve step always clears the
guard, on success and on failure alike; and with the guard clear, the camera
active, the throttle open and the buffer reporting ready, the start step
does issue a remote call and sets the guard. -/
theorem singleFlight_coordinator :
    (∀ (s : CoordState) (now w h : ℕ) (b : String) (img : ImageData),
        s.processing = true →
        handleFrameCaptureStart s now w h b img = (s, none))
  ∧ (∀ (s : CoordState) (outcome : Except String PredictionResponse) (now2 : ℕ),
        (handleFrameCaptureResolve s outcome now2).1.processing = false)
  ∧ (∀ (s : CoordState) (now w h : ℕ) (b : String) (img : ImageData),
        s.processing = false → s.isCameraActive = true →
        s.lastProcessTime + FRAME_INTERVAL_MS ≤ now →
        (s.fb.addFrame now b img).1 = true →
        ((handleFrameCaptureStart s now w h b img).2.isSome = true
          ∧ (handleFrameCaptureStart s now w h b img).1.processing = true)) := by
  refine ⟨?_, ?_, ?_⟩
  · intro s now w h b img h1
    simp [handleFrameCaptureStart, h1]
  · intro s outcome now2
    cases outcome with
    | error msg => rfl
    | ok res =>
        rw [handleFrameCaptureResolve]
        split <;> rfl
  · intro s now w h b img h1 h2 h3 h4
    have hth : ¬((now : ℤ) - (s.lastProcessTime : ℤ) < (FRAME_INTERVAL_MS : ℤ)) := by
      omega
    by_cases hd : 0 < w ∧ 0 < h
    · simp only [handleFrameCaptureStart, h1, h2, Bool.not_true, Bool.or_false,
        Bool.false_eq_true, if_false, if_pos hd]
      rw [if_neg hth]
      rw [h4]
      exact ⟨rfl, rfl⟩
    · simp only [handleFrameCaptureStart, h1, h2, Bool.not_true, Bool.or_false,
        Bool.false_eq_true, if_false, if_neg hd]
      rw [if_neg hth]
      rw [h4]
      exact ⟨rfl, rfl⟩

/-- Witness for C2: a busy coordinator drops a ready signal unchanged, a
failure resolve clears the guard, and the idle coordinator with a ready
buffer issues a call. -/
theorem singleFlight_coordinator_witness :
    handleFrameCaptureStart coordBusy 1000 640 480 "b" imgWhite = (coordBusy, none)
  ∧ (handleFrameCaptureResolve coordBusy (Except.error "network down") 1200).1.processing
      = false
  ∧ ((handleFrameCaptureStart coordIdle 1000 640 480 "b" imgWhite).2.isSome = true
      ∧ (handleFrameCaptureStart coordIdle 1000 640 480 "b" imgWhite).1.processing
          = true) :=
  ⟨singleFlight_coordinator.1 coordBusy 1000 640 480 "b" imgWhite rfl,
   singleFlight_coordinator.2.1 coordBusy (Except.error "network down") 1200,
   singleFlight_coordinator.2.2 coordIdle 1000 640 480 "b" imgWhite rfl rfl (by decide)
     (by decide)⟩

/-! ## C6 -/

/-- Claim C6: a failing inference surfaces the error message to the UI state,
leaves the session running (`isCameraActive` untouched), still resets the
buffer's motion flag, clears the in-flight guard, and triggers no feedback;
and the successful path equally ends with the guard clear and the motion flag
reset, so every exit path releases the guard. -/
theorem inference_failure_recovery :
    ∀ (s : CoordState) (msg : String) (res : PredictionResponse) (now2 : ℕ),
      ((handleFrameCaptureResolve s (Except.error msg) now2).1.error = some msg
        ∧ (handleFrameCaptureResolve s (Except.error msg) now2).1.isCameraActive
            = s.isCameraActive
        ∧ (handleFrameCaptureResolve s (Except.error msg) now2).1.fb.hasSignificantMotion
            = false
        ∧ (handleFrameCaptureResolve s (Except.error msg) now2).1.processing = false
        ∧ (handleFrameCaptureResolve s (Except.error msg) now2).2 = none)
      ∧ ((handleFrameCaptureResolve s (Except.ok res) now2).1.processing = false
        ∧ (handleFrameCaptureResolve s (Except.ok res) now2).1.fb.hasSignificantMotion
            = false) := by
  intro s msg res now2
  refine ⟨⟨rfl, rfl, rfl, rfl, rfl⟩, ?_, ?_⟩
  · rw [handleFrameCaptureResolve]
    split <;> rfl
  · rw [handleFrameCaptureResolve]
    split <;> rfl

/-! ## C7 -/

/-- Claim C7: after a successful inference the voice feedback fires iff the
returned label differs from the remembered one; when it fires it carries the
new label, confidence and message and the remembered label is updated; when
the label repeats, no audio is triggered and the remembered label is kept. -/
theorem voice_feedback_on_change :
    ∀ (s : CoordState) (res : PredictionResponse) (now2 : ℕ),
      (((handleFrameCaptureResolve s (Except.ok res) now2).2.isSome = true)
          ↔ s.lastAction ≠ some res.prediction)
      ∧ (s.lastAction ≠ some res.prediction →
          ((handleFrameCaptureResolve s (Except.ok res) now2).2
              = some (res.prediction, res.confidence, res.message)
            ∧ (handleFrameCaptureResolve s (Except.ok res) now2).1.lastAction
              = some res.prediction))
      ∧ (s.lastAction = some res.prediction →
          ((handleFrameCaptureResolve s (Except.ok res) now2).2 = none
            ∧ (handleFrameCaptureResolve s (Except.ok res) now2).1.lastAction
              = s.lastAction)) := by
  intro s res now2
  refine ⟨?_, ?_, ?_⟩
  · rw [handleFrameCaptureResolve]
    split
    · next hne => simpa using hne
    · next hcon =>
        have heq : s.lastAction = some res.prediction := by
          by_contra hne
          exact hcon hne
        simp [heq]
  · intro hne
    rw [handleFrameCaptureResolve]
    split
    · exact ⟨rfl, rfl⟩
    · next hcon => exact absurd hne hcon
  · intro heq
    rw [handleFrameCaptureResolve]
    split
    · next hne => exact absurd heq hne
    · exact ⟨rfl, rfl⟩

/-- Witness for C7: a fresh coordinator speaks on the first `"High"` result
and exactly records it; a coordinator that already spoke `"High"` stays
silent on the repeat. -/
theorem voice_feedback_on_change_witness :
    (((handleFrameCaptureResolve coordIdle (Except.ok resHigh) 1200).2.isSome = true)
        ↔ coordIdle.lastAction ≠ some resHigh.prediction)
  ∧ ((handleFrameCaptureResolve coordIdle (Except.ok resHigh) 1200).2
        = some (resHigh.prediction, resHigh.confidence, resHigh.message)
      ∧ (handleFrameCaptureResolve coordIdle (Except.ok resHigh) 1200).1.lastAction
        = some resHigh.prediction)
  ∧ ((handleFrameCaptureResolve coordSeenHigh (Except.ok resHigh) 1400).2 = none
      ∧ (handleFrameCaptureResolve coordSeenHigh (Except.ok resHigh) 1400).1.lastAction
        = coordSeenHigh.lastAction) :=
  ⟨(voice_feedback_on_change coordIdle resHigh 1200).1,
   (voice_feedback_on_change coordIdle resHigh 1200).2.1 (by decide),
   (voice_feedback_on_change coordSeenHigh resHigh 1400).2.2 (by decide)⟩

/-! ## C8 -/

/-- An audio state with one element playing, as after one remote utterance. -/
def audioActive : AudioState := ⟨some 0, true, [0], [], 1⟩

/-- Counterexample to C8 as stated: two `speakActionFeedback` calls in quick
succession that take the local speech-synthesis fallback end with two audio
sessions alive — the first utterance is still queued, not stopped; and a
remote-path call after a fallback utterance also leaves two sessions, since
`playAudioFromBase64` never cancels the speech-synthesis queue. -/
theorem fallback_overlap_counterexample :
    (speakActionFeedback (speakActionFeedback AudioState.initial false true "m1")
        false true "m2").activeSessions = 2
  ∧ (speakActionFeedback (speakActionFeedback AudioState.initial false true "m1")
        false true "m2").synthUtterances = ["m1", "m2"]
  ∧ (speakActionFeedback (speakActionFeedback AudioState.initial false true "m1")
        true true "x").activeSessions = 2 := by
  refine ⟨rfl, rfl, rfl⟩

/-- Claim C8 as amended: mutual exclusion holds for the tracked audio
elements on the remote-audio path — `playAudioFromBase64` stops the active
element before starting the new one, leaving exactly the fresh element
playing — while the local speech-synthesis fallback stops nothing and only
appends the utterance to the queue behind whatever is playing. -/
theorem audio_exclusion_remote_only :
    (∀ s : AudioState, ElemInv s →
        ((playAudioFromBase64 s true).playingElems = [s.nextId]
          ∧ ∀ i, s.currentAudio = some i → s.isPlaying = true →
              i ∉ (playAudioFromBase64 s true).playingElems))
  ∧ (∀ (s : AudioState) (text : String),
        (fallbackTTS s text).playingElems = s.playingElems
          ∧ (fallbackTTS s text).synthUtterances = s.synthUtterances ++ [text]) := by
  constructor
  · intro s hinv
    obtain ⟨h1, h2⟩ := hinv
    have hmain : (playAudioFromBase64 s true).playingElems = [s.nextId] := by
      cases hca : s.currentAudio with
      | none =>
          rw [hca] at h1
          have h1n : s.playingElems = [] := h1
          simp [playAudioFromBase64, hca, h1n]
      | some i =>
          rw [hca] at h1
          have h1i : s.playingElems = if s.isPlaying = true then [i] else [] := h1
          by_cases hp : s.isPlaying
          · have h1t : s.playingElems = [i] := by rw [h1i, if_pos hp]
            simp [playAudioFromBase64, hca, hp, h1t]
          · have h1f : s.playingElems = [] := by rw [h1i, if_neg hp]
            simp [playAudioFromBase64, hca, hp, h1f]
    refine ⟨hmain, ?_⟩
    intro i hca hp
    have hlt : i < s.nextId := by
      rw [hca] at h2
      exact h2
    rw [hmain]
    simp only [List.mem_singleton]
    omega
  · intro s text
    exact ⟨rfl, rfl⟩

/-- Witness for C8 (amended): from a state with one active element, the
remote path ends with exactly the fresh element playing and the old one
stopped, while the fallback only queues. -/
theorem audio_exclusion_remote_only_witness :
    ((playAudioFromBase64 audioActive true).playingElems = [audioActive.nextId]
      ∧ (0 : ℕ) ∉ (playAudioFromBase64 audioActive true).playingElems)
  ∧ ((fallbackTTS audioActive "m").playingElems = audioActive.playingElems
      ∧ (fallbackTTS audioActive "m").synthUtterances
          = audioActive.synthUtterances ++ ["m"]) :=
  ⟨⟨(audio_exclusion_remote_only.1 audioActive ⟨rfl, Nat.zero_lt_one⟩).1,
    (audio_exclusion_remote_only.1 audioActive ⟨rfl, Nat.zero_lt_one⟩).2 0 rfl rfl⟩,
   audio_exclusion_remote_only.2 audioActive "m"⟩

/-! ## C9 -/

/-- Claim C9: the initialization chain has first-success-wins semantics over
the ordered variants — a throwing constructor falls through to the next
variant with no caller intervention — and it fails only when all three
variants throw, in which case the single summary initialization error is
surfaced. -/
theorem poseDetector_fallback_chain :
    (∀ l t bz : Except String Detector,
        ((∃ d, initializePoseDetector l t bz = Except.ok d) ↔
          ((∃ d, l = Except.ok d) ∨ (∃ d, t = Except.ok d) ∨ (∃ d, bz = Except.ok d))))
  ∧ (∀ (l t bz : Except String Detector) (d : Detector),
        l = Except.ok d → initializePoseDetector l t bz = Except.ok d)
  ∧ (∀ (l t bz : Except String Detector) (d : Detector) (e : String),
        l = Except.error e → t = Except.ok d →
        initializePoseDetector l t bz = Except.ok d)
  ∧ (∀ (l t bz : Except String Detector) (d : Detector) (e1 e2 : String),
        l = Except.error e1 → t = Except.error e2 → bz = Except.ok d →
        initializePoseDetector l t bz = Except.ok d)
  ∧ (∀ e1 e2 e3 : String,
        initializePoseDetector (Except.error e1) (Except.error e2) (Except.error e3)
          = Except.error poseInitFailureMessage) := by
  refine ⟨?_, ?_, ?_, ?_, ?_⟩
  · intro l t bz
    cases l <;> cases t <;> cases bz <;> simp [initializePoseDetector]
  · intro l t bz d hl
    subst hl
    rfl
  · intro l t bz d e hl ht
    subst hl
    subst ht
    rfl
  · intro l t bz d e1 e2 hl ht hb
    subst hl
    subst ht
    subst hb
    rfl
  · intro e1 e2 e3
    rfl

/-- Witness for C9: Lightning fails, Thunder succeeds — the chain returns the
Thunder detector without caller intervention; and when every variant fails
the summary error is surfaced. -/
theorem poseDetector_fallback_chain_witness :
    ((∃ d, initializePoseDetector (Except.error "no webgl")
        (Except.ok ⟨PoseModel.moveNetThunder⟩) (Except.error "x") = Except.ok d) ↔
      ((∃ d, (Except.error "no webgl" : Except String Detector) = Except.ok d)
        ∨ (∃ d, (Except.ok ⟨PoseModel.moveNetThunder⟩ : Except String Detector)
            = Except.ok d)
        ∨ (∃ d, (Except.error "x" : Except String Detector) = Except.ok d)))
  ∧ initializePoseDetector (Except.error "no webgl")
      (Except.ok ⟨PoseModel.moveNetThunder⟩) (Except.error "x")
      = Except.ok ⟨PoseModel.moveNetThunder⟩
  ∧ initializePoseDetector (Except.error "e1") (Except.error "e2") (Except.error "e3")
      = Except.error poseInitFailureMessage :=
  ⟨poseDetector_fallback_chain.1 (Except.error "no webgl")
      (Except.ok ⟨PoseModel.moveNetThunder⟩) (Except.error "x"),
   poseDetector_fallback_chain.2.2.1 (Except.error "no webgl")
      (Except.ok ⟨PoseModel.moveNetThunder⟩) (Except.error "x")
      ⟨PoseModel.moveNetThunder⟩ "no webgl" rfl rfl,
   poseDetector_fallback_chain.2.2.2.2 "e1" "e2" "e3"⟩

end Pitch
